import Mathlib

/-!
# interzeptor: policy lifecycle of the authorization gate and the accounting record

Shallow embedding of `authz/authz.go` (`FileWatcherInterceptor`) and of
`acctz/acctz.go` (`RecordFromContext`).

Conventions.
* A Go `error` is an `Option String`: `none` is `nil`, `some m` is an error whose
  printed form is `m`.
* A Go `[]byte` is a `List UInt8`; `bytes.Equal` is equality of lists (a nil slice and
  an empty slice are equal for `bytes.Equal`, and both are `[]` here).
  `string(policyContents)` keeps the bytes, so the policy string is the same list.
* Functions that mutate their receiver return the receiver after the call.
* A method call through an interface value may panic instead of returning (a method
  that dereferences its receiver, called on a nil pointer stored in the interface); the
  outcome of such a call, and the result of every function that makes one, is an
  `Option` with `none` for "does not return".
* Every function also returns the list of external calls it made, in order
  (`Effect`), so that statements such as "no translation is performed" can be
  expressed.
* Packages outside the two source files (`rbac`, `translatePolicy`, `os`, `net`,
  `strconv`, `time`) are parameters of the development.
-/

namespace Interzeptor

/-- Go byte slices. -/
abbrev Bytes := List UInt8

namespace Authz

/-- The collaborators of package `authz` that are not defined in `authz.go`:
`translatePolicy`, `rbac.NewChainEngine`, `rbac.ChainEngine` with its zero value and
its `IsAuthorized` method, and the `%v` formatting of a `time.Duration`
(nanoseconds, a signed integer). -/
structure Deps where
  Rbacs : Type
  Engine : Type
  Ctx : Type
  zeroEngine : Engine
  translatePolicy : Bytes → Except String (Rbacs × String)
  NewChainEngine : Rbacs → String → Except String Engine
  IsAuthorized : Engine → Ctx → Option String
  fmtDuration : Int → String

/-- The file system as seen by one `os.ReadFile` call: path to contents or error. -/
abbrev FS := String → Except String Bytes

/-- External calls made by the code, in the order they are made. -/
inductive Effect where
  | ReadFile (path : String)
  | translatePolicy (doc : Bytes)
  | NewChainEngine (policyName : String)
  | goRun
  | Warningf (msg : String)
  | tickerStop
  deriving DecidableEq, Repr

/-- The struct `FileWatcherInterceptor`. `cancel` records whether the cancel
function has been set. -/
structure FileWatcherInterceptor (d : Deps) where
  engines : d.Engine
  policyFile : String
  policyContents : Bytes
  refreshDuration : Int
  cancel : Bool

/-- Result of a method with receiver `*FileWatcherInterceptor` returning `error`. -/
structure Outcome (d : Deps) where
  err : Option String
  state : FileWatcherInterceptor d
  trace : List Effect

/-- The method `initEngine`. -/
def initEngine (d : Deps) (f : FileWatcherInterceptor d) (authzPolicy : Bytes) : Outcome d :=
  match d.translatePolicy authzPolicy with
  | .error err => ⟨some err, f, [Effect.translatePolicy authzPolicy]⟩
  | .ok (rbacs, policyName) =>
    match d.NewChainEngine rbacs policyName with
    | .error err =>
      ⟨some err, f, [Effect.translatePolicy authzPolicy, Effect.NewChainEngine policyName]⟩
    | .ok chainEngine =>
      ⟨none, { f with engines := chainEngine },
        [Effect.translatePolicy authzPolicy, Effect.NewChainEngine policyName]⟩

/-- The method `updateInternalInterceptor`. -/
def updateInternalInterceptor (d : Deps) (fs : FS) (f : FileWatcherInterceptor d) : Outcome d :=
  match fs f.policyFile with
  | .error err =>
    ⟨some ("policyFile(" ++ f.policyFile ++ ") read failed: " ++ err), f,
      [Effect.ReadFile f.policyFile]⟩
  | .ok policyContents =>
    if f.policyContents = policyContents then
      ⟨none, f, [Effect.ReadFile f.policyFile]⟩
    else
      let f1 : FileWatcherInterceptor d := { f with policyContents := policyContents }
      let r := initEngine d f1 policyContents
      ⟨r.err, r.state, Effect.ReadFile f.policyFile :: r.trace⟩

/-- The method `Authorize`. -/
def Authorize (d : Deps) (f : FileWatcherInterceptor d) (ctx : d.Ctx) : Option String :=
  d.IsAuthorized f.engines ctx

/-- Result of `NewFileWatcher`: the pair `(*FileWatcherInterceptor, error)`. -/
structure NewResult (d : Deps) where
  gate : Option (FileWatcherInterceptor d)
  err : Option String
  trace : List Effect

/-- The composite literal `&FileWatcherInterceptor{policyFile: ..., refreshDuration: ...}`
of `NewFileWatcher`: the fields not named have their zero values (a nil slice, a nil
cancel function, the zero `rbac.ChainEngine`). -/
def newInterceptor (d : Deps) (authzPolicyFile : String) (refreshPolicyDuration : Int) :
    FileWatcherInterceptor d :=
  { engines := d.zeroEngine, policyFile := authzPolicyFile, policyContents := [],
    refreshDuration := refreshPolicyDuration, cancel := false }

/-- The function `NewFileWatcher`; the package variables `authzPolicyFile` and
`refreshPolicyDuration` are arguments. -/
def NewFileWatcher (d : Deps) (fs : FS) (authzPolicyFile : String)
    (refreshPolicyDuration : Int) : NewResult d :=
  if authzPolicyFile = "" then
    ⟨none, some "authorization policy file path is empty", []⟩
  else if refreshPolicyDuration ≤ 0 then
    ⟨none, some ("requires refresh interval(" ++ d.fmtDuration refreshPolicyDuration
      ++ ") greater than 0s"), []⟩
  else
    let i := newInterceptor d authzPolicyFile refreshPolicyDuration
    let r := updateInternalInterceptor d fs i
    match r.err with
    | some err => ⟨none, some err, r.trace⟩
    | none => ⟨some { r.state with cancel := true }, none, r.trace ++ [Effect.goRun]⟩

/-- The two states of the loop in `run`. -/
inductive Phase where
  | Running
  | Stopped
  deriving DecidableEq, Repr

/-- The case of the `select` in `run` that fires. -/
inductive Signal where
  | done
  | tick
  deriving DecidableEq, Repr

/-- State of the goroutine executing `run`: its phase, the receiver, and the
external calls made so far. -/
structure Loop (d : Deps) where
  phase : Phase
  gate : FileWatcherInterceptor d
  trace : List Effect

/-- The warning logged by `run` after a reload attempt. -/
def warnOf (err : Option String) : List Effect :=
  match err with
  | some e => [Effect.Warningf ("authorization policy reload status err: " ++ e)]
  | none => []

/-- One iteration of the `for` loop of `run`: a reload attempt against the file
system `fs`, a warning when it fails, then the `select` on which `sig` fires. -/
def runIter (d : Deps) (fs : FS) (sig : Signal) (l : Loop d) : Loop d :=
  match l.phase with
  | .Stopped => l
  | .Running =>
    let r := updateInternalInterceptor d fs l.gate
    match sig with
    | .done => ⟨.Stopped, r.state, l.trace ++ r.trace ++ warnOf r.err ++ [Effect.tickerStop]⟩
    | .tick => ⟨.Running, r.state, l.trace ++ r.trace ++ warnOf r.err⟩

/-- The step relation of `run`: a running loop performs one iteration. -/
inductive Step (d : Deps) : Loop d → Loop d → Prop where
  | iter (fs : FS) (sig : Signal) (l : Loop d) (h : l.phase = Phase.Running) :
      Step d l (runIter d fs sig l)

/-- The loop driven through a schedule of file-system snapshots and signals. -/
def runLoop (d : Deps) : List (FS × Signal) → Loop d → Loop d
  | [], l => l
  | (fs, sig) :: rest, l => runLoop d rest (runIter d fs sig l)

/-- Number of `os.ReadFile` calls in a trace, that is, of reload attempts. -/
def attempts (t : List Effect) : Nat :=
  (t.filter (fun e => match e with | Effect.ReadFile _ => true | _ => false)).length

/-- The attempt calls neither `translatePolicy` nor `rbac.NewChainEngine`. -/
def noRebuild (t : List Effect) : Bool :=
  t.all (fun e => match e with
    | Effect.translatePolicy _ => false
    | Effect.NewChainEngine _ => false
    | _ => true)

/-- A reload attempt fails: the read fails, or `translatePolicy` fails on the bytes
read, or `rbac.NewChainEngine` fails on the translation. -/
def reloadFails (d : Deps) (fs : FS) (f : FileWatcherInterceptor d) : Bool :=
  match fs f.policyFile with
  | .error _ => true
  | .ok doc =>
    match d.translatePolicy doc with
    | .error _ => true
    | .ok (rbacs, policyName) =>
      match d.NewChainEngine rbacs policyName with
      | .error _ => true
      | .ok _ => false

/-- The document `{}` of the test table in `authz_test.go`. -/
def emptyObject : Bytes := [0x7b, 0x7d]

/-- The policy `{"name":"authz","allow_rules":[{"name":"allow_all"}]}`: the valid
policy of the test table in `authz_test.go`, without its white space. -/
def docAllow : Bytes :=
  [0x7b, 0x22, 0x6e, 0x61, 0x6d, 0x65, 0x22, 0x3a, 0x22, 0x61, 0x75, 0x74,
   0x68, 0x7a, 0x22, 0x2c, 0x22, 0x61, 0x6c, 0x6c, 0x6f, 0x77, 0x5f, 0x72,
   0x75, 0x6c, 0x65, 0x73, 0x22, 0x3a, 0x5b, 0x7b, 0x22, 0x6e, 0x61, 0x6d,
   0x65, 0x22, 0x3a, 0x22, 0x61, 0x6c, 0x6c, 0x6f, 0x77, 0x5f, 0x61, 0x6c,
   0x6c, 0x22, 0x7d, 0x5d, 0x7d]

/-- A concrete instance of the collaborators, used to evaluate the code at explicit
inputs. It is the table of what the test table of `authz_test.go` fixes: the
document `{}` is rejected by `translatePolicy` with the reason of that table, the
valid policy `docAllow` translates and builds, and the zero duration prints as `0s`.
Every other document is rejected; the engine built from a document is represented by
that document, and a duration other than zero is printed in nanoseconds. -/
def sampleDeps : Deps where
  Rbacs := Bytes
  Engine := Bytes
  Ctx := Unit
  zeroEngine := []
  translatePolicy := fun doc =>
    if doc = emptyObject then .error "\"name\" is not present"
    else if doc = docAllow then .ok (doc, "authz")
    else .error "failed to unmarshal policy"
  NewChainEngine := fun rbacs _ => .ok rbacs
  IsAuthorized := fun e _ => if e = docAllow then none else some "unauthorized RPC request rejected"
  fmtDuration := fun n => if n = 0 then "0s" else toString n ++ "ns"

/-- A file system in which every path holds the bytes `doc`. -/
def fsOf (doc : Bytes) : FS := fun _ => .ok doc

/-- A gate of `sampleDeps` that has loaded `docAllow`. -/
def sampleGate : FileWatcherInterceptor sampleDeps :=
  { engines := docAllow, policyFile := "/security/authz/policy.json",
    policyContents := docAllow, refreshDuration := 60000000000, cancel := true }

end Authz

namespace Acctz

/-- The functions of `net` and `strconv` used by `splitHostPort`. -/
structure NetLib where
  SplitHostPort : String → Except String (String × String)
  Atoi : String → Except String Int

/-- A `*url.URL`, carried by the result of its `String` method. -/
structure URL where
  text : String
  deriving DecidableEq, Repr

/-- A non-nil `net.Addr`, carried by the outcomes of the calls of its methods
`Network` and `String` through the interface (`none` when the call panics, as a method
that dereferences its receiver does on a nil pointer stored in the interface). -/
structure NetAddr where
  network : Option String
  text : Option String
  deriving DecidableEq, Repr

/-- A non-nil `credentials.AuthInfo`, by its dynamic type: a `credentials.TLSInfo`
value with its `SPIFFEID` field; a `*credentials.TLSInfo`, nil (`target` is `none`) or
pointing to a `TLSInfo` with the given `SPIFFEID`; or a value of another dynamic type
with the outcome of its `AuthType` method (`none` when the call does not return). -/
inductive AuthInfo where
  | TLSInfo (SPIFFEID : Option URL)
  | TLSInfoPtr (target : Option (Option URL))
  | other (authType : Option String)
  deriving DecidableEq, Repr

/-- The method call `AuthType()` through the interface; `none` when the call panics.
`credentials.TLSInfo` answers `tls`; the method has a value receiver, so calling it
through a nil `*credentials.TLSInfo` dereferences the nil pointer and panics. -/
def AuthInfo.AuthType : AuthInfo → Option String
  | .TLSInfo _ => some "tls"
  | .TLSInfoPtr none => none
  | .TLSInfoPtr (some _) => some "tls"
  | .other t => t

/-- The struct `peer.Peer`, restricted to the fields read by the code. -/
structure Peer where
  Addr : Option NetAddr
  LocalAddr : Option NetAddr
  AuthInfo : Option AuthInfo
  deriving DecidableEq, Repr

/-- What a context holds under the peer key: nothing, or a `*peer.Peer` that may
be nil. -/
abbrev Context := Option (Option Peer)

/-- The function `peer.FromContext`: the stored pointer and whether one is stored. -/
def peerFromContext (ctx : Context) : Option Peer × Bool :=
  match ctx with
  | none => (none, false)
  | some p => (p, true)

/-- The enum `SessionInfo_SessionStatus` of the gNSI accounting protocol. -/
inductive SessionStatus where
  | SESSION_STATUS_UNSPECIFIED
  | SESSION_STATUS_LOGIN
  | SESSION_STATUS_LOGOUT
  | SESSION_STATUS_ONCE
  | SESSION_STATUS_ENABLE
  | SESSION_STATUS_IDLE
  | SESSION_STATUS_OPERATION
  deriving DecidableEq, Repr

/-- The message `UserDetail`, restricted to the field set by the code. -/
structure UserDetail where
  Identity : String
  deriving DecidableEq, Repr

/-- The message `SessionInfo`; the numeric fields are `uint32`. -/
structure SessionInfo where
  LocalAddress : String
  LocalPort : Nat
  RemoteAddress : String
  RemotePort : Nat
  IpProto : Nat
  Status : SessionStatus
  User : UserDetail
  deriving DecidableEq, Repr

/-- The message `RecordResponse`, restricted to the fields set by the code. -/
structure RecordResponse where
  SessionInfo : SessionInfo
  Timestamp : Nat
  ComponentName : String
  deriving DecidableEq, Repr

/-- The function `ipProto`; `none` when the call of `Network` panics. -/
def ipProto (addr : Option NetAddr) : Option Nat :=
  match addr with
  | none => some 0
  | some a =>
    match a.network with
    | none => none
    | some nw =>
      some (if nw = "tcp" then 6
        else if nw = "udp" then 17
        else if nw = "ip4" then 4
        else if nw = "ip6" then 41
        else if nw = "ipv4" then 4
        else if nw = "ipv6" then 41
        else 0)

/-- The conversion `uint32(port)` of a Go `int`. -/
def toUint32 (port : Int) : Nat := (port % 2 ^ 32).toNat

/-- The function `splitHostPort`; `none` when the call of `String` panics (the
warnings of the function are logged only and do not affect the result). -/
def splitHostPort (lib : NetLib) (addr : Option NetAddr) : Option (String × Nat) :=
  match addr with
  | none => some ("unknown-host", 0)
  | some a =>
    match a.text with
    | none => none
    | some str =>
      match lib.SplitHostPort str with
      | .error _ => some ("", 0)
      | .ok (host, p) =>
        match lib.Atoi p with
        | .error _ => some ("", 0)
        | .ok port => some (host, toUint32 port)

/-- The condition `p.AuthInfo != nil && p.AuthInfo.AuthType() != t.AuthType()` of
`spiffeIDFromContext`, where `t` is the zero `credentials.TLSInfo`; `none` when the
call of `AuthType` panics. -/
def notTLSAuthType (a : Option AuthInfo) : Option Bool :=
  match a with
  | none => some false
  | some x =>
    match x.AuthType with
    | none => none
    | some ty => some (ty != "tls")

/-- The function `spiffeIDFromContext`: the pair `(*url.URL, error)`, or `none` when
the call panics. The type assertion `p.AuthInfo.(credentials.TLSInfo)` succeeds only
for a value of that very type. -/
def spiffeIDFromContext (p : Peer) : Option (Option URL × Option String) :=
  match notTLSAuthType p.AuthInfo with
  | none => none
  | some true => some (none, some "peer is not a TLS peer")
  | some false =>
    match p.AuthInfo with
    | some (.TLSInfo id) => some (id, none)
    | _ => some (none, some "peer information is not TLS")

/-- Result of `RecordFromContext`: the pair `(*apb.RecordResponse, error)`. -/
structure RecordResult where
  record : Option RecordResponse
  err : Option String
  deriving DecidableEq, Repr

/-- The string `spiffeID` of `RecordFromContext` for the SPIFFE ID `id`. -/
def spiffeIDString (id : Option URL) : String :=
  match id with
  | some u => u.text
  | none => "unknown-user"

/-- The composite literal `&apb.RecordResponse` of `RecordFromContext`, from the string
`spiffeID`, the results `l` and `r` of the two calls of `splitHostPort` and the
result `proto` of `ipProto`. -/
def recordOf (now : Nat) (arg0 : String) (spiffeID : String) (l r : String × Nat)
    (proto : Nat) : RecordResponse :=
  { SessionInfo :=
      { LocalAddress := l.1, LocalPort := l.2, RemoteAddress := r.1, RemotePort := r.2,
        IpProto := proto,
        Status := SessionStatus.SESSION_STATUS_OPERATION,
        User := { Identity := spiffeID } },
    Timestamp := now, ComponentName := arg0 }

/-- The method `RecordFromContext`; `now` is the value of `tpb.Now()` and `arg0`
the value of `os.Args[0]`. The result is `none` when the call panics instead of
returning. The error of `spiffeIDFromContext` is logged only. -/
def RecordFromContext (lib : NetLib) (now : Nat) (arg0 : String) (ctx : Context) :
    Option RecordResult :=
  match peerFromContext ctx with
  | (_, false) => some ⟨none, some "no peer information in context"⟩
  | (none, true) => some ⟨none, some "no peer information in context"⟩
  | (some pi, true) =>
    match spiffeIDFromContext pi with
    | none => none
    | some (id, _) =>
      match splitHostPort lib pi.LocalAddr with
      | none => none
      | some l =>
        match splitHostPort lib pi.Addr with
        | none => none
        | some r =>
          match ipProto pi.LocalAddr with
          | none => none
          | some proto =>
            some ⟨some (recordOf now arg0 (spiffeIDString id) l r proto), none⟩

/-- The call of `AuthType` made by `spiffeIDFromContext` on the peer returns: the
`AuthInfo` is nil (no call is made) or its `AuthType` method returns. -/
def authTypeReturns (p : Peer) : Bool :=
  match p.AuthInfo with
  | none => true
  | some a => a.AuthType.isSome

/-- The call of `String` made by `splitHostPort` on the address returns: the address
is nil (no call is made) or its `String` method returns. -/
def stringReturns (a : Option NetAddr) : Bool :=
  match a with
  | none => true
  | some x => x.text.isSome

/-- The call of `Network` made by `ipProto` on the address returns: the address is
nil (no call is made) or its `Network` method returns. -/
def networkReturns (a : Option NetAddr) : Bool :=
  match a with
  | none => true
  | some x => x.network.isSome

/-- Every interface method call that `RecordFromContext` makes on the fields of the
peer returns: `AuthType` on the `AuthInfo`, `String` on both addresses and `Network` on
the local address. -/
def callsReturn (p : Peer) : Bool :=
  authTypeReturns p && stringReturns p.LocalAddr && stringReturns p.Addr
    && networkReturns p.LocalAddr

/-- The SPIFFE ID that reaches the record: the `SPIFFEID` field when the `AuthInfo` of
the peer is a `credentials.TLSInfo` value, nil for every other `AuthInfo`. -/
def tlsSPIFFEID (p : Peer) : Option URL :=
  match p.AuthInfo with
  | some (.TLSInfo id) => id
  | _ => none

/-- The values of `net.SplitHostPort` and `strconv.Atoi` on the two addresses of
the test table in `acctz_test.go`; every other argument is rejected. -/
def sampleNet : NetLib where
  SplitHostPort := fun s =>
    if s = "192.0.0.1:1" then .ok ("192.0.0.1", "1")
    else if s = "192.0.0.2:1" then .ok ("192.0.0.2", "1")
    else .error "missing port in address"
  Atoi := fun p => if p = "1" then .ok 1 else .error "invalid syntax"

/-- The peer `good-peer` of the test table in `acctz_test.go`. -/
def goodPeer : Peer :=
  { Addr := some { network := some "tcp", text := some "192.0.0.2:1" },
    LocalAddr := some { network := some "tcp", text := some "192.0.0.1:1" },
    AuthInfo := some (AuthInfo.TLSInfo (some { text := "spiffeid://me" })) }

/-- The peer `empty-peer` of the test table in `acctz_test.go`. -/
def emptyPeer : Peer := { Addr := none, LocalAddr := none, AuthInfo := none }

/-- A non-nil peer whose `AuthInfo` is the interface value `(*credentials.TLSInfo)(nil)`. -/
def nilPointerPeer : Peer :=
  { Addr := none, LocalAddr := none, AuthInfo := some (AuthInfo.TLSInfoPtr none) }

/-- A non-nil peer whose `AuthInfo` is a non-nil `*credentials.TLSInfo` carrying a
SPIFFE ID. -/
def pointerPeer : Peer :=
  { Addr := none, LocalAddr := none,
    AuthInfo := some (AuthInfo.TLSInfoPtr (some (some { text := "spiffeid://me" }))) }

/-- A non-nil peer without `AuthInfo` whose local address answers `String` but
panics in `Network`. -/
def badNetworkPeer : Peer :=
  { Addr := none, LocalAddr := some { network := none, text := some "<nil>" },
    AuthInfo := none }

end Acctz

end Interzeptor

namespace Interzeptor

namespace Authz

/-! ## Basic facts about a reload attempt -/

/-- Closed form of `updateInternalInterceptor` when the read fails. -/
theorem update_read_error (d : Deps) (fs : FS) (f : FileWatcherInterceptor d) (e : String)
    (h : fs f.policyFile = .error e) :
    updateInternalInterceptor d fs f =
      ⟨some ("policyFile(" ++ f.policyFile ++ ") read failed: " ++ e), f,
        [Effect.ReadFile f.policyFile]⟩ := by
  simp only [updateInternalInterceptor, h]

/-- Closed form of `updateInternalInterceptor` when the bytes read are the stored
bytes. -/
theorem update_unchanged (d : Deps) (fs : FS) (f : FileWatcherInterceptor d)
    (h : fs f.policyFile = .ok f.policyContents) :
    updateInternalInterceptor d fs f = ⟨none, f, [Effect.ReadFile f.policyFile]⟩ := by
  simp only [updateInternalInterceptor, h, if_true]

/-- Closed form of `updateInternalInterceptor` when the bytes read differ from the
stored bytes. -/
theorem update_changed (d : Deps) (fs : FS) (f : FileWatcherInterceptor d) (doc : Bytes)
    (h : fs f.policyFile = .ok doc) (hne : f.policyContents ≠ doc) :
    updateInternalInterceptor d fs f =
      ⟨(initEngine d { f with policyContents := doc } doc).err,
        (initEngine d { f with policyContents := doc } doc).state,
        Effect.ReadFile f.policyFile ::
          (initEngine d { f with policyContents := doc } doc).trace⟩ := by
  simp only [updateInternalInterceptor, h, if_neg hne]

/-- The method `initEngine` touches no field but `engines`. -/
theorem initEngine_fields (d : Deps) (f : FileWatcherInterceptor d) (doc : Bytes) :
    (initEngine d f doc).state.policyFile = f.policyFile ∧
    (initEngine d f doc).state.policyContents = f.policyContents ∧
    (initEngine d f doc).state.refreshDuration = f.refreshDuration ∧
    (initEngine d f doc).state.cancel = f.cancel := by
  unfold initEngine
  split
  · exact ⟨rfl, rfl, rfl, rfl⟩
  · split <;> exact ⟨rfl, rfl, rfl, rfl⟩

/-- A failing `initEngine` leaves the receiver as it was. -/
theorem initEngine_err_state (d : Deps) (f : FileWatcherInterceptor d) (doc : Bytes)
    (h : (initEngine d f doc).err ≠ none) : (initEngine d f doc).state = f := by
  unfold initEngine at h ⊢
  split
  · rfl
  · split
    · rfl
    · rename_i h1 _ _ h2
      simp [h1, h2] at h

/-- The method `initEngine` returns an error exactly when translation or engine
build fails. -/
theorem initEngine_err_iff (d : Deps) (f : FileWatcherInterceptor d) (doc : Bytes) :
    (initEngine d f doc).err ≠ none ↔
      (match d.translatePolicy doc with
        | .error _ => true
        | .ok (rbacs, policyName) =>
          match d.NewChainEngine rbacs policyName with
          | .error _ => true
          | .ok _ => false) = true := by
  unfold initEngine
  split
  · simp
  · split <;> simp

/-- A reload attempt never changes the path that is watched. -/
theorem update_policyFile (d : Deps) (fs : FS) (f : FileWatcherInterceptor d) :
    (updateInternalInterceptor d fs f).state.policyFile = f.policyFile := by
  cases h : fs f.policyFile with
  | error e => rw [update_read_error d fs f e h]
  | ok doc =>
    by_cases hne : f.policyContents = doc
    · rw [update_unchanged d fs f (hne ▸ h)]
    · rw [update_changed d fs f doc h hne]
      exact (initEngine_fields d _ doc).1

/-- The engine after a reload attempt is the old one unless the attempt returns
no error. -/
theorem update_engine_of_err (d : Deps) (fs : FS) (f : FileWatcherInterceptor d)
    (h : (updateInternalInterceptor d fs f).err ≠ none) :
    (updateInternalInterceptor d fs f).state.engines = f.engines := by
  cases hfs : fs f.policyFile with
  | error e => rw [update_read_error d fs f e hfs]
  | ok doc =>
    by_cases hne : f.policyContents = doc
    · rw [update_unchanged d fs f (hne ▸ hfs)]
    · rw [update_changed d fs f doc hfs hne] at h ⊢
      simp only at h ⊢
      rw [initEngine_err_state d _ doc h]

/-- The engine after a reload attempt is the old one when the read, the translation
of the bytes read or the engine build fails, whether or not the attempt reports it. -/
theorem update_engine_of_fails (d : Deps) (fs : FS) (f : FileWatcherInterceptor d)
    (h : reloadFails d fs f = true) :
    (updateInternalInterceptor d fs f).state.engines = f.engines := by
  cases hfs : fs f.policyFile with
  | error e => rw [update_read_error d fs f e hfs]
  | ok doc =>
    by_cases hne : f.policyContents = doc
    · rw [update_unchanged d fs f (hne ▸ hfs)]
    · apply update_engine_of_err
      rw [update_changed d fs f doc hfs hne]
      simp only
      rw [initEngine_err_iff]
      simpa [reloadFails, hfs] using h

/-! ## C1 -/

/-- C1: a reload attempt that fails (the read fails, or `translatePolicy` fails on the
bytes read, or `rbac.NewChainEngine` fails; in particular every attempt that returns
an error) leaves the active engine as it was, so `Authorize` answers every request
context as it did before the attempt. -/
theorem C1_failed_reload_keeps_engine (d : Deps) (fs : FS) (f : FileWatcherInterceptor d)
    (h : reloadFails d fs f = true ∨ (updateInternalInterceptor d fs f).err ≠ none) :
    (updateInternalInterceptor d fs f).state.engines = f.engines ∧
    ∀ ctx : d.Ctx,
      Authorize d (updateInternalInterceptor d fs f).state ctx = Authorize d f ctx := by
  have he : (updateInternalInterceptor d fs f).state.engines = f.engines := by
    cases h with
    | inl h => exact update_engine_of_fails d fs f h
    | inr h => exact update_engine_of_err d fs f h
  refine ⟨he, ?_⟩
  intro ctx
  unfold Authorize
  rw [he]

/-- C1 at a concrete gate: reading `{}` fails and the engine built from `docAllow`
stays in force. -/
theorem C1_failed_reload_keeps_engine_witness :
    (updateInternalInterceptor sampleDeps (fsOf emptyObject) sampleGate).err
        = some "\"name\" is not present" ∧
    (updateInternalInterceptor sampleDeps (fsOf emptyObject) sampleGate).state.engines
        = docAllow ∧
    Authorize sampleDeps
        (updateInternalInterceptor sampleDeps (fsOf emptyObject) sampleGate).state ()
      = Authorize sampleDeps sampleGate () :=
  ⟨by decide,
   (C1_failed_reload_keeps_engine sampleDeps (fsOf emptyObject) sampleGate
      (Or.inl (by decide))).1,
   (C1_failed_reload_keeps_engine sampleDeps (fsOf emptyObject) sampleGate
      (Or.inl (by decide))).2 ()⟩

/-! ## C2 -/

/-- After an attempt whose read succeeds, the stored bytes are the bytes read. -/
theorem update_policyContents_ok (d : Deps) (fs : FS) (f : FileWatcherInterceptor d)
    (doc : Bytes) (h : fs f.policyFile = .ok doc) :
    (updateInternalInterceptor d fs f).state.policyContents = doc := by
  by_cases hne : f.policyContents = doc
  · rw [update_unchanged d fs f (hne ▸ h)]
    exact hne
  · rw [update_changed d fs f doc h hne]
    exact (initEngine_fields d _ doc).2.1

/-- C2 (as the code behaves, at a concrete gate): the attempt that reads `{}` fails in
translation, yet the stored bytes are no longer the bytes stored before it. -/
theorem C2_failed_reload_changes_stored_bytes :
    reloadFails sampleDeps (fsOf emptyObject) sampleGate = true ∧
    (updateInternalInterceptor sampleDeps (fsOf emptyObject) sampleGate).err
        = some "\"name\" is not present" ∧
    (updateInternalInterceptor sampleDeps (fsOf emptyObject) sampleGate).state.policyContents
        ≠ sampleGate.policyContents := by
  decide

/-- C2 (amended): after any reload attempt, failed or not, the stored bytes are the
stored bytes from before when the read fails, and are the bytes read when the read
succeeds, also when translation or engine build then fails. -/
theorem C2_stored_bytes_are_last_read (d : Deps) (fs : FS) (f : FileWatcherInterceptor d) :
    (updateInternalInterceptor d fs f).state.policyContents =
      (match fs f.policyFile with
        | .error _ => f.policyContents
        | .ok doc => doc) := by
  cases h : fs f.policyFile with
  | error e => rw [update_read_error d fs f e h]
  | ok doc => exact update_policyContents_ok d fs f doc h

/-! ## C3 -/

/-- C3 (the code at the zero-length document): whatever `translatePolicy` and
`rbac.NewChainEngine` would answer, `NewFileWatcher` on a policy file of length zero
returns a gate and no error; the gate holds the zero-value engine, and the only
external calls are the read and the start of the background loop, so no translation
and no engine build took place. -/
theorem C3_empty_document_returns_unbuilt_gate (d : Deps) :
    NewFileWatcher d (fsOf []) "/security/authz/policy.json" 1 =
      ⟨some { engines := d.zeroEngine, policyFile := "/security/authz/policy.json",
              policyContents := [], refreshDuration := 1, cancel := true },
        none,
        [Effect.ReadFile "/security/authz/policy.json", Effect.goRun]⟩ := by
  have hp : ("/security/authz/policy.json" : String) ≠ "" := by decide
  have hi : ¬ ((1 : Int) ≤ 0) := by decide
  simp only [NewFileWatcher, if_neg hp, if_neg hi]
  rw [update_unchanged d (fsOf []) (newInterceptor d "/security/authz/policy.json" 1) rfl]
  rfl

/-! ## C4 -/

/-- Construction with valid configuration is one reload attempt on the initial
receiver: its error is returned with no gate, and otherwise the receiver is returned
after the background loop is started. -/
theorem NewFileWatcher_valid (d : Deps) (fs : FS) (path : String) (interval : Int)
    (hp : path ≠ "") (hi : 0 < interval) :
    NewFileWatcher d fs path interval =
      (match (updateInternalInterceptor d fs (newInterceptor d path interval)).err with
        | some err =>
          ⟨none, some err,
            (updateInternalInterceptor d fs (newInterceptor d path interval)).trace⟩
        | none =>
          ⟨some { (updateInternalInterceptor d fs (newInterceptor d path interval)).state
                  with cancel := true },
            none,
            (updateInternalInterceptor d fs (newInterceptor d path interval)).trace
              ++ [Effect.goRun]⟩) := by
  have hi2 : ¬ (interval ≤ 0) := not_le.mpr hi
  simp only [NewFileWatcher, if_neg hp, if_neg hi2]

/-- The error of an attempt that reads changed bytes on which translation fails is
the translation error, unwrapped. -/
theorem update_translate_error (d : Deps) (fs : FS) (f : FileWatcherInterceptor d)
    (doc : Bytes) (reason : String) (h : fs f.policyFile = .ok doc)
    (hne : f.policyContents ≠ doc) (htr : d.translatePolicy doc = .error reason) :
    updateInternalInterceptor d fs f =
      ⟨some reason, { f with policyContents := doc },
        [Effect.ReadFile f.policyFile, Effect.translatePolicy doc]⟩ := by
  rw [update_changed d fs f doc h hne]
  simp only [initEngine, htr]

/-- C4 (as the code behaves, at a concrete gate): the first tick that reads `{}`
reports that the name is not present; the next tick reads the same `{}` and
returns no error. -/
theorem C4_second_tick_reports_nothing :
    (updateInternalInterceptor sampleDeps (fsOf emptyObject) sampleGate).err
        = some "\"name\" is not present" ∧
    (updateInternalInterceptor sampleDeps (fsOf emptyObject)
        (updateInternalInterceptor sampleDeps (fsOf emptyObject) sampleGate).state).err
        = none := by
  decide

/-- C4 (amended): let translation of the document `doc` fail with `reason`. A load
attempt that reads `doc` while the stored bytes differ from `doc` returns exactly
`reason`: so does a steady-state call of `updateInternalInterceptor`, and so does
`NewFileWatcher` at construction when `doc` is not of length zero (it then returns no
gate). A call that reads `doc` while the stored bytes are `doc`, such as the tick
that follows an attempt which read `doc`, returns no error and does not translate. -/
theorem C4_missing_name_reported_on_change (d : Deps) (fs : FS)
    (f : FileWatcherInterceptor d) (doc : Bytes) (reason : String)
    (htr : d.translatePolicy doc = .error reason) (h : fs f.policyFile = .ok doc) :
    (f.policyContents ≠ doc → (updateInternalInterceptor d fs f).err = some reason) ∧
    (f.policyContents = doc →
      (updateInternalInterceptor d fs f).err = none ∧
      noRebuild (updateInternalInterceptor d fs f).trace = true) ∧
    (∀ interval : Int, f.policyFile ≠ "" → 0 < interval → doc ≠ [] →
      (NewFileWatcher d fs f.policyFile interval).err = some reason ∧
      (NewFileWatcher d fs f.policyFile interval).gate = none) ∧
    (updateInternalInterceptor d fs (updateInternalInterceptor d fs f).state).err = none := by
  refine ⟨?_, ?_, ?_, ?_⟩
  · intro hne
    rw [update_translate_error d fs f doc reason h hne htr]
  · intro heq
    rw [update_unchanged d fs f (heq ▸ h)]
    exact ⟨rfl, rfl⟩
  · intro interval hp hi hdoc
    rw [NewFileWatcher_valid d fs f.policyFile interval hp hi]
    rw [update_translate_error d fs (newInterceptor d f.policyFile interval) doc reason h
      (fun hh => hdoc hh.symm) htr]
    exact ⟨rfl, rfl⟩
  · have hfile := update_policyFile d fs f
    have hc := update_policyContents_ok d fs f doc h
    rw [update_unchanged d fs _ (by rw [hfile, hc]; exact h)]

/-- C4 (amended) at a concrete gate and the document `{}`. -/
theorem C4_missing_name_reported_on_change_witness :
    (updateInternalInterceptor sampleDeps (fsOf emptyObject) sampleGate).err
        = some "\"name\" is not present" ∧
    (NewFileWatcher sampleDeps (fsOf emptyObject) sampleGate.policyFile 1).err
        = some "\"name\" is not present" ∧
    (updateInternalInterceptor sampleDeps (fsOf emptyObject)
        (updateInternalInterceptor sampleDeps (fsOf emptyObject) sampleGate).state).err
        = none :=
  ⟨(C4_missing_name_reported_on_change sampleDeps (fsOf emptyObject) sampleGate emptyObject
      "\"name\" is not present" rfl rfl).1 (by decide),
   ((C4_missing_name_reported_on_change sampleDeps (fsOf emptyObject) sampleGate emptyObject
      "\"name\" is not present" rfl rfl).2.2.1 1 (by decide) (by decide) (by decide)).1,
   (C4_missing_name_reported_on_change sampleDeps (fsOf emptyObject) sampleGate emptyObject
      "\"name\" is not present" rfl rfl).2.2.2⟩

/-! ## C5 -/

/-- Closed form of a reload attempt that reads changed bytes which translate and
build. -/
theorem update_success (d : Deps) (fs : FS) (f : FileWatcherInterceptor d) (doc : Bytes)
    (rbacs : d.Rbacs) (policyName : String) (e : d.Engine)
    (h : fs f.policyFile = .ok doc) (hne : f.policyContents ≠ doc)
    (htr : d.translatePolicy doc = .ok (rbacs, policyName))
    (hb : d.NewChainEngine rbacs policyName = .ok e) :
    updateInternalInterceptor d fs f =
      ⟨none, { f with engines := e, policyContents := doc },
        [Effect.ReadFile f.policyFile, Effect.translatePolicy doc,
          Effect.NewChainEngine policyName]⟩ := by
  rw [update_changed d fs f doc h hne]
  simp only [initEngine, htr, hb]

/-- C5: when the read succeeds with bytes `doc` different from the stored bytes,
`translatePolicy doc` succeeds and `rbac.NewChainEngine` succeeds with engine `e` on
its result, the attempt returns no error and afterwards the active engine is `e` and
the stored bytes are `doc`, every other field being as before; and at construction,
where the stored bytes are empty, `NewFileWatcher` returns no error and a gate with
engine `e` and stored bytes `doc`. -/
theorem C5_successful_reload_replaces_both (d : Deps) (fs : FS)
    (f : FileWatcherInterceptor d) (doc : Bytes) (rbacs : d.Rbacs) (policyName : String)
    (e : d.Engine)
    (h : fs f.policyFile = .ok doc) (hne : f.policyContents ≠ doc)
    (htr : d.translatePolicy doc = .ok (rbacs, policyName))
    (hb : d.NewChainEngine rbacs policyName = .ok e) :
    (updateInternalInterceptor d fs f).err = none ∧
    (updateInternalInterceptor d fs f).state = { f with engines := e, policyContents := doc } ∧
    (∀ interval : Int, f.policyFile ≠ "" → 0 < interval → doc ≠ [] →
      (NewFileWatcher d fs f.policyFile interval).err = none ∧
      (NewFileWatcher d fs f.policyFile interval).gate =
        some { engines := e, policyFile := f.policyFile, policyContents := doc,
               refreshDuration := interval, cancel := true }) := by
  refine ⟨?_, ?_, ?_⟩
  · rw [update_success d fs f doc rbacs policyName e h hne htr hb]
  · rw [update_success d fs f doc rbacs policyName e h hne htr hb]
  · intro interval hp hi hdoc
    rw [NewFileWatcher_valid d fs f.policyFile interval hp hi]
    rw [update_success d fs (newInterceptor d f.policyFile interval) doc rbacs policyName e h
      (fun hh => hdoc hh.symm) htr hb]
    exact ⟨rfl, rfl⟩

/-- C5 at concrete inputs: a gate that stores `{}` reloads `docAllow`, and a gate is
constructed from `docAllow`. -/
theorem C5_successful_reload_replaces_both_witness :
    (updateInternalInterceptor sampleDeps (fsOf docAllow)
        { sampleGate with engines := [], policyContents := emptyObject }).err = none ∧
    (updateInternalInterceptor sampleDeps (fsOf docAllow)
        { sampleGate with engines := [], policyContents := emptyObject }).state = sampleGate ∧
    (NewFileWatcher sampleDeps (fsOf docAllow) "/security/authz/policy.json" 60000000000).gate
      = some sampleGate :=
  ⟨(C5_successful_reload_replaces_both sampleDeps (fsOf docAllow)
      { sampleGate with engines := [], policyContents := emptyObject } docAllow docAllow
      "authz" docAllow rfl (by decide) rfl rfl).1,
   (C5_successful_reload_replaces_both sampleDeps (fsOf docAllow)
      { sampleGate with engines := [], policyContents := emptyObject } docAllow docAllow
      "authz" docAllow rfl (by decide) rfl rfl).2.1,
   ((C5_successful_reload_replaces_both sampleDeps (fsOf docAllow)
      { sampleGate with engines := [], policyContents := emptyObject } docAllow docAllow
      "authz" docAllow rfl (by decide) rfl rfl).2.2 60000000000
      (by decide) (by decide) (by decide)).2⟩

/-! ## C6 -/

/-- C6: when two consecutive reload attempts both read the same bytes `doc`, the
second one makes no call but the read (no translation, no engine build), returns no
error, and leaves the receiver, hence the active engine and the stored bytes, exactly
as the first attempt left it, whether the first attempt succeeded or failed. -/
theorem C6_reload_idempotent_on_unchanged_content (d : Deps) (fs1 fs2 : FS)
    (f : FileWatcherInterceptor d) (doc : Bytes)
    (h1 : fs1 f.policyFile = .ok doc) (h2 : fs2 f.policyFile = .ok doc) :
    (updateInternalInterceptor d fs2 (updateInternalInterceptor d fs1 f).state).err = none ∧
    (updateInternalInterceptor d fs2 (updateInternalInterceptor d fs1 f).state).state
      = (updateInternalInterceptor d fs1 f).state ∧
    (updateInternalInterceptor d fs2 (updateInternalInterceptor d fs1 f).state).trace
      = [Effect.ReadFile f.policyFile] ∧
    noRebuild (updateInternalInterceptor d fs2 (updateInternalInterceptor d fs1 f).state).trace
      = true := by
  have hfile := update_policyFile d fs1 f
  have hc := update_policyContents_ok d fs1 f doc h1
  rw [update_unchanged d fs2 _ (by rw [hfile, hc]; exact h2), hfile]
  exact ⟨rfl, rfl, rfl, rfl⟩

/-- C6 at concrete inputs, after a first attempt that failed on `{}`. -/
theorem C6_reload_idempotent_on_unchanged_content_witness :
    (updateInternalInterceptor sampleDeps (fsOf emptyObject) sampleGate).err
      = some "\"name\" is not present" ∧
    (updateInternalInterceptor sampleDeps (fsOf emptyObject)
      (updateInternalInterceptor sampleDeps (fsOf emptyObject) sampleGate).state).trace
      = [Effect.ReadFile "/security/authz/policy.json"] :=
  ⟨by decide,
   (C6_reload_idempotent_on_unchanged_content sampleDeps (fsOf emptyObject)
      (fsOf emptyObject) sampleGate emptyObject rfl rfl).2.2.1⟩

/-! ## C7 -/

/-- C7: with an empty policy file path or a refresh interval that is not positive,
`NewFileWatcher` returns an error and no gate and makes no external call at all (no
read of the policy source, no start of the background loop), whatever the file system
holds; with a non-empty path the error text is
`requires refresh interval(` followed by the printed interval and
`) greater than 0s`, which for the zero interval, printed `0s`, is
`requires refresh interval(0s) greater than 0s`. -/
theorem C7_configuration_errors (d : Deps) (fs : FS) (path : String) (interval : Int)
    (h : path = "" ∨ interval ≤ 0) :
    (NewFileWatcher d fs path interval).gate = none ∧
    (NewFileWatcher d fs path interval).err ≠ none ∧
    (NewFileWatcher d fs path interval).trace = [] ∧
    (path ≠ "" →
      (NewFileWatcher d fs path interval).err =
        some ("requires refresh interval(" ++ d.fmtDuration interval ++ ") greater than 0s")) ∧
    (path ≠ "" → interval = 0 → d.fmtDuration 0 = "0s" →
      (NewFileWatcher d fs path interval).err =
        some "requires refresh interval(0s) greater than 0s") := by
  by_cases hp : path = ""
  · simp [NewFileWatcher, hp]
  · have hi : interval ≤ 0 := h.resolve_left hp
    have hr : NewFileWatcher d fs path interval =
        ⟨none, some ("requires refresh interval(" ++ d.fmtDuration interval
          ++ ") greater than 0s"), []⟩ := by
      simp only [NewFileWatcher, if_neg hp, if_pos hi]
    rw [hr]
    refine ⟨rfl, fun hh => Option.noConfusion hh, rfl, fun _ => rfl, ?_⟩
    intro _ h0 hfmt
    rw [h0, hfmt]
    rfl

/-- C7 at the inputs of the test table: interval zero. -/
theorem C7_configuration_errors_witness :
    (NewFileWatcher sampleDeps (fsOf docAllow) "/tmp/policy.json" 0).gate = none ∧
    (NewFileWatcher sampleDeps (fsOf docAllow) "/tmp/policy.json" 0).trace = [] ∧
    (NewFileWatcher sampleDeps (fsOf docAllow) "/tmp/policy.json" 0).err =
      some "requires refresh interval(0s) greater than 0s" :=
  ⟨(C7_configuration_errors sampleDeps (fsOf docAllow) "/tmp/policy.json" 0
      (Or.inr (by decide))).1,
   (C7_configuration_errors sampleDeps (fsOf docAllow) "/tmp/policy.json" 0
      (Or.inr (by decide))).2.2.1,
   (C7_configuration_errors sampleDeps (fsOf docAllow) "/tmp/policy.json" 0
      (Or.inr (by decide))).2.2.2.2 (by decide) rfl rfl⟩

/-! ## C8 -/

/-- Counting attempts distributes over concatenation of traces. -/
theorem attempts_append (a b : List Effect) : attempts (a ++ b) = attempts a + attempts b := by
  simp [attempts, List.filter_append]

/-- The method `initEngine` reads no file. -/
theorem attempts_initEngine (d : Deps) (f : FileWatcherInterceptor d) (doc : Bytes) :
    attempts (initEngine d f doc).trace = 0 := by
  unfold initEngine
  split
  · rfl
  · split <;> rfl

/-- A reload attempt reads the policy file exactly once. -/
theorem attempts_update (d : Deps) (fs : FS) (f : FileWatcherInterceptor d) :
    attempts (updateInternalInterceptor d fs f).trace = 1 := by
  cases h : fs f.policyFile with
  | error e => rw [update_read_error d fs f e h]; rfl
  | ok doc =>
    by_cases hne : f.policyContents = doc
    · rw [update_unchanged d fs f (hne ▸ h)]; rfl
    · rw [update_changed d fs f doc h hne]
      have h0 := attempts_initEngine d { f with policyContents := doc } doc
      simp only [attempts, List.filter_cons] at h0 ⊢
      simp [h0]

/-- The warning of `run` is not a read. -/
theorem attempts_warnOf (err : Option String) : attempts (warnOf err) = 0 := by
  cases err <;> rfl

/-- A running iteration: phase, receiver and number of attempts afterwards. -/
theorem runIter_running (d : Deps) (fs : FS) (sig : Signal) (l : Loop d)
    (h : l.phase = Phase.Running) :
    ((runIter d fs sig l).phase = Phase.Stopped ↔ sig = Signal.done) ∧
    (runIter d fs sig l).gate = (updateInternalInterceptor d fs l.gate).state ∧
    attempts (runIter d fs sig l).trace = attempts l.trace + 1 := by
  cases sig with
  | done =>
    refine ⟨?_, ?_, ?_⟩
    · simp only [runIter, h]
    · simp only [runIter, h]
    · simp only [runIter, h, attempts_append, attempts_update, attempts_warnOf]
      rfl
  | tick =>
    refine ⟨?_, ?_, ?_⟩
    · simp only [runIter, h]
      exact ⟨fun hh => Phase.noConfusion hh, fun hh => Signal.noConfusion hh⟩
    · simp only [runIter, h]
    · simp only [runIter, h, attempts_append, attempts_update, attempts_warnOf]

/-- A stopped loop is not changed by an iteration. -/
theorem runIter_stopped (d : Deps) (fs : FS) (sig : Signal) (l : Loop d)
    (h : l.phase = Phase.Stopped) : runIter d fs sig l = l := by
  simp only [runIter, h]

/-- A stopped loop is not changed by any schedule. -/
theorem runLoop_stopped (d : Deps) (sched : List (FS × Signal)) (l : Loop d)
    (h : l.phase = Phase.Stopped) : runLoop d sched l = l := by
  induction sched with
  | nil => rfl
  | cons x rest ih =>
    obtain ⟨fs, sig⟩ := x
    simp only [runLoop, runIter_stopped d fs sig l h, ih]

/-- C8: in the step model of `run`, (1) a running iteration makes exactly one reload
attempt, leaves the receiver as that attempt left it, and ends Stopped exactly when
the cancellation case of the `select` fires; (2) when the attempt returns an error
and the tick fires, the loop is still Running and the following iteration makes one
more attempt; (3) a loop moves to Stopped only by an iteration in which the
cancellation case fired; (4) a Stopped loop takes no step, and no schedule of ticks,
cancellations and file contents changes it, so no further attempt is made and the
active engine and the stored bytes stay as they are. -/
theorem C8_loop_stops_only_on_cancellation (d : Deps) (l : Loop d) (fs : FS) (sig : Signal) :
    (l.phase = Phase.Running →
      ((runIter d fs sig l).phase = Phase.Stopped ↔ sig = Signal.done) ∧
      (runIter d fs sig l).gate = (updateInternalInterceptor d fs l.gate).state ∧
      attempts (runIter d fs sig l).trace = attempts l.trace + 1) ∧
    (l.phase = Phase.Running → (updateInternalInterceptor d fs l.gate).err ≠ none →
      (runIter d fs Signal.tick l).phase = Phase.Running ∧
      ∀ (fs2 : FS) (sig2 : Signal),
        attempts (runIter d fs2 sig2 (runIter d fs Signal.tick l)).trace
          = attempts (runIter d fs Signal.tick l).trace + 1) ∧
    (∀ l2 : Loop d, Step d l l2 → l2.phase = Phase.Stopped →
      l.phase = Phase.Running ∧ ∃ fs0 : FS, l2 = runIter d fs0 Signal.done l) ∧
    (l.phase = Phase.Stopped →
      (¬ ∃ l2 : Loop d, Step d l l2) ∧
      ∀ sched : List (FS × Signal),
        runLoop d sched l = l ∧
        (runLoop d sched l).gate.engines = l.gate.engines ∧
        (runLoop d sched l).gate.policyContents = l.gate.policyContents ∧
        attempts (runLoop d sched l).trace = attempts l.trace) := by
  refine ⟨fun h => runIter_running d fs sig l h, ?_, ?_, ?_⟩
  · intro h _
    have hrun : (runIter d fs Signal.tick l).phase = Phase.Running := by
      simp only [runIter, h]
    exact ⟨hrun, fun fs2 sig2 => (runIter_running d fs2 sig2 _ hrun).2.2⟩
  · intro l2 hstep hstop
    cases hstep with
    | iter fs0 sig0 _ hrun =>
      refine ⟨hrun, fs0, ?_⟩
      have := (runIter_running d fs0 sig0 l hrun).1.mp hstop
      rw [this]
  · intro h
    refine ⟨?_, ?_⟩
    · rintro ⟨l2, hstep⟩
      cases hstep with
      | iter fs0 sig0 _ hrun => rw [h] at hrun; exact Phase.noConfusion hrun
    · intro sched
      rw [runLoop_stopped d sched l h]
      exact ⟨rfl, rfl, rfl, rfl⟩

/-- C8 at a concrete loop: a running loop over `sampleGate` whose file holds `{}`
fails its attempt and keeps running on a tick; the same loop stops on cancellation
and is then unchanged by a later tick on a valid policy. -/
theorem C8_loop_stops_only_on_cancellation_witness :
    (runIter sampleDeps (fsOf emptyObject) Signal.tick
        ⟨Phase.Running, sampleGate, []⟩).phase = Phase.Running ∧
    attempts (runIter sampleDeps (fsOf docAllow) Signal.tick
        (runIter sampleDeps (fsOf emptyObject) Signal.tick
          ⟨Phase.Running, sampleGate, []⟩)).trace = 2 ∧
    (runLoop sampleDeps [(fsOf docAllow, Signal.tick)]
        ⟨Phase.Stopped, sampleGate, []⟩).gate.policyContents = docAllow :=
  ⟨((C8_loop_stops_only_on_cancellation sampleDeps ⟨Phase.Running, sampleGate, []⟩
      (fsOf emptyObject) Signal.tick).2.1 rfl (by decide)).1,
   ((C8_loop_stops_only_on_cancellation sampleDeps ⟨Phase.Running, sampleGate, []⟩
      (fsOf emptyObject) Signal.tick).2.1 rfl (by decide)).2 (fsOf docAllow) Signal.tick,
   ((C8_loop_stops_only_on_cancellation sampleDeps ⟨Phase.Stopped, sampleGate, []⟩
      (fsOf emptyObject) Signal.tick).2.2.2 rfl).2 [(fsOf docAllow, Signal.tick)] |>.2.2.1⟩

end Authz

namespace Acctz

/-! ## The accounting record -/

/-- The function `spiffeIDFromContext` returns when its call of `AuthType` returns, and
the SPIFFE ID it then returns is the one of a `credentials.TLSInfo` value. -/
theorem spiffeIDFromContext_returns (p : Peer) (h : authTypeReturns p = true) :
    ∃ e : Option String, spiffeIDFromContext p = some (tlsSPIFFEID p, e) := by
  unfold authTypeReturns at h
  unfold spiffeIDFromContext notTLSAuthType tlsSPIFFEID
  cases hp : p.AuthInfo with
  | none => exact ⟨_, rfl⟩
  | some a =>
    rw [hp] at h
    cases a with
    | TLSInfo id => exact ⟨_, rfl⟩
    | TLSInfoPtr t =>
      cases t with
      | none => exact absurd h (by decide)
      | some v => exact ⟨_, rfl⟩
    | other t =>
      cases t with
      | none => exact absurd h (by decide)
      | some ty =>
        by_cases hty : ty = "tls"
        · subst hty
          exact ⟨_, rfl⟩
        · refine ⟨some "peer is not a TLS peer", ?_⟩
          have hb : (ty != "tls") = true := by simpa using hty
          simp only [AuthInfo.AuthType, hb]

/-- The function `spiffeIDFromContext` does not return when its call of `AuthType`
does not. -/
theorem spiffeIDFromContext_panics (p : Peer) (h : authTypeReturns p = false) :
    spiffeIDFromContext p = none := by
  unfold authTypeReturns at h
  unfold spiffeIDFromContext notTLSAuthType
  cases hp : p.AuthInfo with
  | none => rw [hp] at h; exact absurd h (by decide)
  | some a =>
    rw [hp] at h
    cases hty : a.AuthType with
    | none => simp only [hty]
    | some ty => simp [hty] at h

/-- The function `splitHostPort` returns exactly when its call of `String` does. -/
theorem splitHostPort_isSome (lib : NetLib) (a : Option NetAddr) :
    (splitHostPort lib a).isSome = stringReturns a := by
  cases a with
  | none => rfl
  | some x =>
    cases hx : x.text with
    | none => simp [splitHostPort, stringReturns, hx]
    | some str =>
      simp only [splitHostPort, stringReturns, hx]
      cases lib.SplitHostPort str with
      | error e => rfl
      | ok hp =>
        obtain ⟨host, pt⟩ := hp
        simp only
        cases lib.Atoi pt <;> rfl

/-- The function `ipProto` returns exactly when its call of `Network` does. -/
theorem ipProto_isSome (a : Option NetAddr) : (ipProto a).isSome = networkReturns a := by
  cases a with
  | none => rfl
  | some x =>
    cases hx : x.network with
    | none => simp [ipProto, networkReturns, hx]
    | some nw => simp [ipProto, networkReturns, hx]

/-- What `RecordFromContext` returns on a non-nil peer, when it returns: every
interface method call returned, and the result is the record built from the results of
`splitHostPort` and `ipProto` and from the SPIFFE ID of a `credentials.TLSInfo` value,
with no error. -/
theorem RecordFromContext_peer_inv (lib : NetLib) (now : Nat) (arg0 : String) (p : Peer)
    (res : RecordResult) (h : RecordFromContext lib now arg0 (some (some p)) = some res) :
    callsReturn p = true ∧
    ∃ (l r : String × Nat) (proto : Nat),
      splitHostPort lib p.LocalAddr = some l ∧ splitHostPort lib p.Addr = some r ∧
      ipProto p.LocalAddr = some proto ∧
      res = ⟨some (recordOf now arg0 (spiffeIDString (tlsSPIFFEID p)) l r proto), none⟩ := by
  cases hr : authTypeReturns p with
  | false =>
    have hp := spiffeIDFromContext_panics p hr
    simp [RecordFromContext, peerFromContext, hp] at h
  | true =>
    obtain ⟨e, he⟩ := spiffeIDFromContext_returns p hr
    cases hl : splitHostPort lib p.LocalAddr with
    | none => simp [RecordFromContext, peerFromContext, he, hl] at h
    | some l =>
      cases hrm : splitHostPort lib p.Addr with
      | none => simp [RecordFromContext, peerFromContext, he, hl, hrm] at h
      | some r =>
        cases hpr : ipProto p.LocalAddr with
        | none => simp [RecordFromContext, peerFromContext, he, hl, hrm, hpr] at h
        | some proto =>
          have h1 := splitHostPort_isSome lib p.LocalAddr
          have h2 := splitHostPort_isSome lib p.Addr
          have h3 := ipProto_isSome p.LocalAddr
          rw [hl] at h1
          rw [hrm] at h2
          rw [hpr] at h3
          refine ⟨?_, l, r, proto, rfl, rfl, rfl, ?_⟩
          · simp [callsReturn, hr, ← h1, ← h2, ← h3]
          · simp only [RecordFromContext, peerFromContext, he, hl, hrm, hpr] at h
            exact (Option.some.inj h).symm

/-- On a non-nil peer all of whose interface method calls return, `RecordFromContext`
returns a record and no error. -/
theorem RecordFromContext_peer (lib : NetLib) (now : Nat) (arg0 : String) (p : Peer)
    (h : callsReturn p = true) :
    ∃ (l r : String × Nat) (proto : Nat),
      RecordFromContext lib now arg0 (some (some p)) =
        some ⟨some (recordOf now arg0 (spiffeIDString (tlsSPIFFEID p)) l r proto), none⟩ := by
  simp only [callsReturn, Bool.and_eq_true] at h
  obtain ⟨⟨⟨ha, hl⟩, hr⟩, hn⟩ := h
  obtain ⟨e, he⟩ := spiffeIDFromContext_returns p ha
  rw [← splitHostPort_isSome lib] at hl hr
  rw [← ipProto_isSome] at hn
  obtain ⟨l, hl⟩ := Option.isSome_iff_exists.mp hl
  obtain ⟨r, hr⟩ := Option.isSome_iff_exists.mp hr
  obtain ⟨proto, hn⟩ := Option.isSome_iff_exists.mp hn
  exact ⟨l, r, proto, by simp only [RecordFromContext, peerFromContext, he, hl, hr, hn]⟩

/-- The function `splitHostPort` on an address whose string form the library splits
into `host` and a port text that parses to `n` within the range of ports. -/
theorem splitHostPort_ok (lib : NetLib) (a : NetAddr) (str host pt : String) (n : Int)
    (hstr : a.text = some str)
    (hs : lib.SplitHostPort str = .ok (host, pt)) (ha : lib.Atoi pt = .ok n)
    (h0 : 0 ≤ n) (h1 : n ≤ 65535) :
    splitHostPort lib (some a) = some (host, n.toNat) := by
  simp only [splitHostPort, hstr, hs, ha, toUint32]
  have : n % 2 ^ 32 = n := Int.emod_eq_of_lt h0 (by omega)
  rw [this]

/-- The identity written into the record, by the `AuthInfo` of the peer. -/
theorem spiffeIDString_tls (p : Peer) :
    spiffeIDString (tlsSPIFFEID p) =
      (match p.AuthInfo with
        | some (AuthInfo.TLSInfo (some id)) => id.text
        | _ => "unknown-user") := by
  unfold spiffeIDString tlsSPIFFEID
  cases h : p.AuthInfo with
  | none => rfl
  | some a =>
    cases a with
    | TLSInfo id => cases id <;> rfl
    | TLSInfoPtr t => rfl
    | other t => rfl

/-! ## C9 -/

/-- C9 (as the code behaves, at concrete peers): for the non-nil peer whose `AuthInfo`
holds a nil `*credentials.TLSInfo`, the call of `AuthType` in `spiffeIDFromContext`
panics, so `RecordFromContext` returns neither a record nor an error; likewise for a
non-nil peer whose local address panics in `Network`. -/
theorem C9_nil_pointer_peer_gets_no_record :
    (some (some nilPointerPeer) : Context) ≠ none ∧
    (some (some nilPointerPeer) : Context) ≠ some none ∧
    spiffeIDFromContext nilPointerPeer = none ∧
    RecordFromContext sampleNet 0 "interzeptor" (some (some nilPointerPeer)) = none ∧
    RecordFromContext sampleNet 0 "interzeptor" (some (some badNetworkPeer)) = none := by
  decide

/-- C9 (amended): whenever `RecordFromContext` returns, it returns an error exactly
when the context carries no peer or a nil peer, and then no record; on a context with
no peer or a nil peer it does return. For every non-nil peer whose interface values
answer the method calls made on them (`AuthType` on a non-nil `AuthInfo`, `String` and
`Network` on non-nil addresses), it returns a record and no error, also when
`spiffeIDFromContext` reports an error, and the identity of the user in the record is
the string form of the SPIFFE ID when the `AuthInfo` is a `credentials.TLSInfo` value
with a non-nil `SPIFFEID`, and `unknown-user` in every other case (nil `AuthInfo`, an
`AuthInfo` of another type, among them a non-nil `*credentials.TLSInfo`, a `TLSInfo`
with nil `SPIFFEID`). -/
theorem C9_record_error_iff_no_peer (lib : NetLib) (now : Nat) (arg0 : String)
    (ctx : Context) :
    (∀ res : RecordResult, RecordFromContext lib now arg0 ctx = some res →
      (res.err ≠ none ↔ (ctx = none ∨ ctx = some none)) ∧
      (res.err ≠ none → res.record = none)) ∧
    ((ctx = none ∨ ctx = some none) →
      ∃ e : String, RecordFromContext lib now arg0 ctx = some ⟨none, some e⟩) ∧
    (∀ p : Peer, ctx = some (some p) → callsReturn p = true →
      ∃ r : RecordResponse,
        RecordFromContext lib now arg0 ctx = some ⟨some r, none⟩ ∧
        r.SessionInfo.User.Identity =
          (match p.AuthInfo with
            | some (AuthInfo.TLSInfo (some id)) => id.text
            | _ => "unknown-user")) := by
  match ctx with
  | none =>
    refine ⟨?_, fun _ => ⟨_, rfl⟩, ?_⟩
    · intro res hres
      have hr : res = ⟨none, some "no peer information in context"⟩ := by
        simpa [RecordFromContext, peerFromContext] using hres.symm
      subst hr
      exact ⟨⟨fun _ => Or.inl rfl, fun _ hh => Option.noConfusion hh⟩, fun _ => rfl⟩
    · intro p hp
      exact Option.noConfusion hp
  | some none =>
    refine ⟨?_, fun _ => ⟨_, rfl⟩, ?_⟩
    · intro res hres
      have hr : res = ⟨none, some "no peer information in context"⟩ := by
        simpa [RecordFromContext, peerFromContext] using hres.symm
      subst hr
      exact ⟨⟨fun _ => Or.inr rfl, fun _ hh => Option.noConfusion hh⟩, fun _ => rfl⟩
    · intro p hp
      simp at hp
  | some (some q) =>
    refine ⟨?_, ?_, ?_⟩
    · intro res hres
      obtain ⟨_, l, r, proto, _, _, _, hr⟩ := RecordFromContext_peer_inv lib now arg0 q res hres
      subst hr
      refine ⟨⟨fun h => absurd rfl h, fun h => ?_⟩, fun h => absurd rfl h⟩
      rcases h with h | h <;> simp at h
    · intro h
      rcases h with h | h <;> simp at h
    · intro p hp hret
      have hq : q = p := by simpa using hp
      subst hq
      obtain ⟨l, r, proto, hrec⟩ := RecordFromContext_peer lib now arg0 q hret
      exact ⟨_, hrec, spiffeIDString_tls q⟩

/-- C9 (amended) on the peers of the test table and on a peer with a non-nil
`*credentials.TLSInfo`. -/
theorem C9_record_error_iff_no_peer_witness :
    (∃ r : RecordResponse,
      RecordFromContext sampleNet 0 "interzeptor" (some (some goodPeer))
        = some ⟨some r, none⟩ ∧
      r.SessionInfo.User.Identity = "spiffeid://me") ∧
    (∃ r : RecordResponse,
      RecordFromContext sampleNet 0 "interzeptor" (some (some emptyPeer))
        = some ⟨some r, none⟩ ∧
      r.SessionInfo.User.Identity = "unknown-user") ∧
    (∃ r : RecordResponse,
      RecordFromContext sampleNet 0 "interzeptor" (some (some pointerPeer))
        = some ⟨some r, none⟩ ∧
      r.SessionInfo.User.Identity = "unknown-user") ∧
    (∃ e : String,
      RecordFromContext sampleNet 0 "interzeptor" (some none) = some ⟨none, some e⟩) :=
  ⟨(C9_record_error_iff_no_peer sampleNet 0 "interzeptor" (some (some goodPeer))).2.2
      goodPeer rfl (by decide),
   (C9_record_error_iff_no_peer sampleNet 0 "interzeptor" (some (some emptyPeer))).2.2
      emptyPeer rfl (by decide),
   (C9_record_error_iff_no_peer sampleNet 0 "interzeptor" (some (some pointerPeer))).2.2
      pointerPeer rfl (by decide),
   (C9_record_error_iff_no_peer sampleNet 0 "interzeptor" (some none)).2.1 (Or.inr rfl)⟩

/-! ## C10 -/

/-- C10: for every non-nil peer, `RecordFromContext` returns whenever the interface
method calls it makes on the peer return, and whatever it returns is a record whose
session fields are as follows. A nil local (remote) address gives local (remote)
address `unknown-host` and port 0. A local (remote) address whose string form is split
by `net.SplitHostPort` into `host` and a port text that `strconv.Atoi` reads as a
number `n` with `0 ≤ n ≤ 65535` gives exactly `host` and `n`. `IpProto` is 0 when the
local address is nil, 6 for network `tcp`, 17 for `udp`, 4 for `ip4` and `ipv4`, 41 for
`ip6` and `ipv6`, 0 for any other network. `Status` is `SESSION_STATUS_OPERATION`. -/
theorem C10_session_address_fields (lib : NetLib) (now : Nat) (arg0 : String) (p : Peer) :
    (callsReturn p = true →
      ∃ res : RecordResult, RecordFromContext lib now arg0 (some (some p)) = some res) ∧
    ∀ res : RecordResult, RecordFromContext lib now arg0 (some (some p)) = some res →
    ∃ r : RecordResponse,
      res.record = some r ∧
      (p.LocalAddr = none →
        r.SessionInfo.LocalAddress = "unknown-host" ∧ r.SessionInfo.LocalPort = 0 ∧
        r.SessionInfo.IpProto = 0) ∧
      (p.Addr = none →
        r.SessionInfo.RemoteAddress = "unknown-host" ∧ r.SessionInfo.RemotePort = 0) ∧
      (∀ (a : NetAddr) (str host pt : String) (n : Int), p.LocalAddr = some a →
        a.text = some str →
        lib.SplitHostPort str = .ok (host, pt) → lib.Atoi pt = .ok n →
        0 ≤ n → n ≤ 65535 →
        r.SessionInfo.LocalAddress = host ∧ (r.SessionInfo.LocalPort : Int) = n) ∧
      (∀ (a : NetAddr) (str host pt : String) (n : Int), p.Addr = some a →
        a.text = some str →
        lib.SplitHostPort str = .ok (host, pt) → lib.Atoi pt = .ok n →
        0 ≤ n → n ≤ 65535 →
        r.SessionInfo.RemoteAddress = host ∧ (r.SessionInfo.RemotePort : Int) = n) ∧
      (∀ (a : NetAddr) (nw : String), p.LocalAddr = some a → a.network = some nw →
        (nw = "tcp" → r.SessionInfo.IpProto = 6) ∧
        (nw = "udp" → r.SessionInfo.IpProto = 17) ∧
        (nw = "ip4" ∨ nw = "ipv4" → r.SessionInfo.IpProto = 4) ∧
        (nw = "ip6" ∨ nw = "ipv6" → r.SessionInfo.IpProto = 41) ∧
        (nw ∉ ["tcp", "udp", "ip4", "ip6", "ipv4", "ipv6"] →
          r.SessionInfo.IpProto = 0)) ∧
      r.SessionInfo.Status = SessionStatus.SESSION_STATUS_OPERATION := by
  refine ⟨fun h => ?_, ?_⟩
  · obtain ⟨l, r, proto, hrec⟩ := RecordFromContext_peer lib now arg0 p h
    exact ⟨_, hrec⟩
  intro res hres
  obtain ⟨_, l, r, proto, hl, hr, hpr, hres2⟩ := RecordFromContext_peer_inv lib now arg0 p res hres
  subst hres2
  refine ⟨_, rfl, ?_, ?_, ?_, ?_, ?_, rfl⟩
  · intro h
    rw [h] at hl hpr
    have hl2 : l = ("unknown-host", 0) := (Option.some.inj hl).symm
    have hp2 : proto = 0 := (Option.some.inj hpr).symm
    subst hl2
    subst hp2
    exact ⟨rfl, rfl, rfl⟩
  · intro h
    rw [h] at hr
    have hr2 : r = ("unknown-host", 0) := (Option.some.inj hr).symm
    subst hr2
    exact ⟨rfl, rfl⟩
  · intro a str host pt n hla hstr hs ha h0 h1
    rw [hla, splitHostPort_ok lib a str host pt n hstr hs ha h0 h1] at hl
    have hl2 : l = (host, n.toNat) := (Option.some.inj hl).symm
    subst hl2
    exact ⟨rfl, Int.toNat_of_nonneg h0⟩
  · intro a str host pt n hra hstr hs ha h0 h1
    rw [hra, splitHostPort_ok lib a str host pt n hstr hs ha h0 h1] at hr
    have hr2 : r = (host, n.toNat) := (Option.some.inj hr).symm
    subst hr2
    exact ⟨rfl, Int.toNat_of_nonneg h0⟩
  · intro a nw hla hnw
    rw [hla] at hpr
    simp only [ipProto, hnw, Option.some.injEq] at hpr
    subst hpr
    simp only [recordOf]
    refine ⟨?_, ?_, ?_, ?_, ?_⟩
    · intro h; simp [h]
    · intro h; simp [h]
    · rintro (h | h) <;> simp [h]
    · rintro (h | h) <;> simp [h]
    · intro h
      simp only [List.mem_cons, List.mem_singleton, List.not_mem_nil, or_false,
        not_or] at h
      obtain ⟨h1, h2, h3, h4, h5, h6⟩ := h
      simp [h1, h2, h3, h4, h5, h6]

/-- C10 on the peer `good-peer` of the test table. -/
theorem C10_session_address_fields_witness :
    ∃ r : RecordResponse,
      RecordFromContext sampleNet 0 "interzeptor" (some (some goodPeer))
        = some ⟨some r, none⟩ ∧
      (r.SessionInfo.LocalAddress = "192.0.0.1" ∧ (r.SessionInfo.LocalPort : Int) = 1) ∧
      (r.SessionInfo.RemoteAddress = "192.0.0.2" ∧ (r.SessionInfo.RemotePort : Int) = 1) ∧
      r.SessionInfo.IpProto = 6 ∧
      r.SessionInfo.Status = SessionStatus.SESSION_STATUS_OPERATION :=
  match (C10_session_address_fields sampleNet 0 "interzeptor" goodPeer).2
      ⟨some (recordOf 0 "interzeptor" "spiffeid://me" ("192.0.0.1", 1) ("192.0.0.2", 1) 6),
        none⟩
      (by decide) with
  | ⟨r, hr, _, _, hl, hrm, hp, hs⟩ =>
    ⟨r, by rw [← hr]; decide,
      hl ⟨some "tcp", some "192.0.0.1:1"⟩ "192.0.0.1:1" "192.0.0.1" "1" 1 rfl rfl rfl rfl
        (by decide) (by decide),
      hrm ⟨some "tcp", some "192.0.0.2:1"⟩ "192.0.0.2:1" "192.0.0.2" "1" 1 rfl rfl rfl rfl
        (by decide) (by decide),
      (hp ⟨some "tcp", some "192.0.0.1:1"⟩ "tcp" rfl rfl).1 rfl, hs⟩

end Acctz

end Interzeptor
